import Mathlib

/-!
Shallow embedding of the ProductBrowser repository: the ASP.NET Core proxy
(`ProductAPI/Controllers/ProductController.cs`, class `ProductsController`) and the
frontend hooks (`useScrollLock.ts`, `useProduct.ts`, `ProductDetailPage`).
C# `decimal` fields are modelled as rationals; clock times are natural numbers counted
in seconds; the upstream DummyJSON service is an explicit oracle parameter.
-/

/-- `ProductDto` from ProductController.cs: the full 11-field product shape. -/
structure ProductDto where
  id : Int
  title : String
  description : String
  price : Rat
  thumbnail : String
  rating : Rat
  brand : String
  category : String
  images : List String
  stock : Int
  discountPercentage : Rat
deriving DecidableEq, Repr

/-- `DummyJsonResponse` from ProductController.cs: the upstream list body.
When a field is absent in the JSON, System.Text.Json leaves the C# property
initializer in place: `Products` stays the empty list and the ints stay 0. -/
structure DummyJsonResponse where
  products : List ProductDto
  total : Int
  skip : Int
  limit : Int
deriving DecidableEq, Repr

/-- One entry of the proxy's `IMemoryCache`: a product snapshot together with its
absolute expiration instant (seconds). -/
structure CacheEntry where
  value : ProductDto
  expiresAt : Nat
deriving DecidableEq, Repr

/-- The proxy's in-memory cache, an association list from string cache keys to entries. -/
abbrev Cache := List (String × CacheEntry)

def cacheLookup (c : Cache) (k : String) : Option CacheEntry :=
  (c.find? (fun e => e.1 == k)).map (fun e => e.2)

/-- Models `IMemoryCache.TryGetValue`: an entry is visible only strictly before its
absolute expiration (.NET treats an entry whose absolute expiration has been reached
as expired and absent). -/
def tryGetValue (c : Cache) (now : Nat) (k : String) : Option ProductDto :=
  match cacheLookup c k with
  | some e => if now < e.expiresAt then some e.value else none
  | none => none

/-- Models `IMemoryCache.Set` with `MemoryCacheEntryOptions.SetAbsoluteExpiration`:
the new entry replaces any previous entry under the same key. -/
def cacheSet (c : Cache) (k : String) (v : ProductDto) (expiresAt : Nat) : Cache :=
  (k, ⟨v, expiresAt⟩) :: c.filter (fun e => e.1 != k)

/-- The anonymous error bodies `new { error = ... }` returned by the controller. -/
structure ErrorBody where
  error : String
deriving DecidableEq, Repr

/-- Outcome of `GetProduct` (single-item endpoint): `Ok` = 200, `NotFound` = 404,
`StatusCode(500, ...)` = 500. -/
inductive ProductResult where
  | ok (body : ProductDto)
  | notFound (body : ErrorBody)
  | serverError (body : ErrorBody)
deriving DecidableEq, Repr

/-- The upstream single-item call `GET {base}/products/{id}`, as observed through
`GetAsync` + `EnsureSuccessStatusCode` + `Deserialize`: a successful fetch yields the
parsed `ProductDto`; a 404 status raises `HttpRequestException` with `NotFound`;
`error` covers every other HTTP failure or deserialization exception. -/
inductive SingleUpstream where
  | success (product : ProductDto)
  | notFound
  | error
deriving DecidableEq, Repr

/-- The cache key `$"product_{id}"` built in `GetProduct`. -/
def productCacheKey (id : Int) : String := s!"product_{id}"

/-- `ProductsController.GetProduct` (ProductController.cs lines 171-227), with the
upstream service as an oracle, the cache passed as explicit state and `now` the current
clock in seconds. Returns the HTTP result, the cache after the call, and how many
upstream calls were made. `TimeSpan.FromMinutes(1)` is the 60-second absolute expiry. -/
def GetProduct (upstream : Int → SingleUpstream) (cache : Cache) (now : Nat) (id : Int) :
    ProductResult × Cache × Nat :=
  match tryGetValue cache now (productCacheKey id) with
  | some cachedProduct => (.ok cachedProduct, cache, 0)
  | none =>
    match upstream id with
    | .success product =>
        (.ok product, cacheSet cache (productCacheKey id) product (now + 60), 1)
    | .notFound => (.notFound ⟨"Product not found"⟩, cache, 1)
    | .error => (.serverError ⟨"Failed to fetch product details"⟩, cache, 1)

/-- The constant `DUMMY_JSON_BASE_URL` of the controller. -/
def DUMMY_JSON_BASE_URL : String := "https://dummyjson.com"

/-- Models `string.IsNullOrEmpty` on the nullable `search` parameter. -/
def isNullOrEmpty : Option String → Bool
  | none => true
  | some s => s == ""

/-- Models C# unchecked `Int32` arithmetic: the result of each operation is reduced to
the signed 32-bit range [-2147483648, 2147483648), wrapping on overflow. -/
def toInt32 (n : Int) : Int := (n + 2147483648) % 4294967296 - 2147483648

/-- The upstream URL built by `GetProducts` (ProductController.cs lines 77-94):
`limit = 12`, `skip = (page - 1) * limit` computed in C# unchecked `Int32` arithmetic
(both the subtraction and the multiplication wrap on overflow), search endpoint iff the
search string is neither null nor empty. The skip value is interpolated into the URL
unvalidated. -/
def listRequestUrl (search : Option String) (page : Int) : String :=
  let limit : Int := 12
  let skip : Int := toInt32 (toInt32 (page - 1) * limit)
  if isNullOrEmpty search = false then
    let q := search.getD ""
    s!"{DUMMY_JSON_BASE_URL}/products/search?q={q}&limit={limit}&skip={skip}"
  else
    s!"{DUMMY_JSON_BASE_URL}/products?limit={limit}&skip={skip}"

/-- The 8-field list-view item of the anonymous object in `GetProducts`
(ProductController.cs lines 121-131). -/
structure ListViewItem where
  id : Int
  title : String
  description : String
  price : Rat
  thumbnail : String
  rating : Rat
  brand : String
  category : String
deriving DecidableEq, Repr

/-- The `Select` projection of `GetProducts`: keep only the 8 list-view fields. -/
def toListViewItem (p : ProductDto) : ListViewItem :=
  { id := p.id
    title := p.title
    description := p.description
    price := p.price
    thumbnail := p.thumbnail
    rating := p.rating
    brand := p.brand
    category := p.category }

/-- The normalized list body built by `GetProducts`: `products` is null exactly when the
upstream body deserialized to null (the C# `dummyJsonResponse?.Products?.Select` chain). -/
structure NormalizedResponse where
  products : Option (List ListViewItem)
  total : Int
  page : Int
  totalPages : Int
deriving DecidableEq, Repr

/-- Outcome of `GetProducts` (list endpoint): `Ok` = 200, `StatusCode(500, ...)` = 500. -/
inductive ListResult where
  | ok (body : NormalizedResponse)
  | serverError (body : ErrorBody)
deriving DecidableEq, Repr

/-- The upstream list call as observed by `GetProducts`: `success` carries the
deserialization result (`none` models a body that is JSON null, which
`JsonSerializer.Deserialize` maps to a null reference without throwing); `httpError`
covers `GetAsync`/`EnsureSuccessStatusCode` failures and `parseError` a deserialization
exception — both land in the same `catch`. -/
inductive ListUpstream where
  | success (parsed : Option DummyJsonResponse)
  | httpError
  | parseError
deriving DecidableEq, Repr

/-- Models `(int)Math.Ceiling(total / (double)limit)` with `limit = 12` from
ProductController.cs line 134. For every `Int32` total, dividing by 12.0 in double
precision and taking the ceiling is exact (the quotient is never within double rounding
error of a wrong integer), so the expression equals the mathematical ceiling of
total / 12, computed here by integer floor division. -/
def ceilingDiv12 (total : Int) : Int := Int.fdiv (total + 11) 12

/-- `ProductsController.GetProducts` (ProductController.cs lines 67-154), with the
upstream service as an oracle keyed by the request URL and the cache passed as explicit
state (the method never touches the cache). Returns the HTTP result, the cache after the
call, and the list of upstream URLs fetched. -/
def GetProducts (upstream : String → ListUpstream) (cache : Cache)
    (search : Option String) (page : Int) :
    ListResult × Cache × List String :=
  let url := listRequestUrl search page
  match upstream url with
  | .success dummyJsonResponse =>
      let total := (dummyJsonResponse.map (fun r => r.total)).getD 0
      (.ok { products := dummyJsonResponse.map (fun r => r.products.map toListViewItem)
             total := total
             page := page
             totalPages := ceilingDiv12 total },
       cache, [url])
  | .httpError => (.serverError ⟨"Failed to fetch products"⟩, cache, [url])
  | .parseError => (.serverError ⟨"Failed to fetch products"⟩, cache, [url])

/-- A minimal JSON value type, used to state which keys the serialized response bodies
carry (System.Text.Json serializes the controller's anonymous objects with these
property names; camel-casing leaves them unchanged). -/
inductive JsonVal where
  | jnull
  | jstr (s : String)
  | jint (n : Int)
  | jrat (q : Rat)
  | jarr (elems : List JsonVal)
  | jobj (fields : List (String × JsonVal))

/-- Serialization of one list-view item, with the property names of the anonymous
object in `GetProducts`. -/
def serializeListViewItem (p : ListViewItem) : JsonVal :=
  .jobj [("id", .jint p.id), ("title", .jstr p.title),
         ("description", .jstr p.description), ("price", .jrat p.price),
         ("thumbnail", .jstr p.thumbnail), ("rating", .jrat p.rating),
         ("brand", .jstr p.brand), ("category", .jstr p.category)]

/-- Serialization of the normalized list body, with the property names of the anonymous
object in `GetProducts` (a null `products` chain serializes as JSON null). -/
def serializeNormalizedResponse (b : NormalizedResponse) : JsonVal :=
  .jobj [("products",
           match b.products with
           | none => .jnull
           | some xs => .jarr (xs.map serializeListViewItem)),
         ("total", .jint b.total), ("page", .jint b.page),
         ("totalPages", .jint b.totalPages)]

/-- Serialization of `new { error = ... }`. -/
def serializeErrorBody (b : ErrorBody) : JsonVal :=
  .jobj [("error", .jstr b.error)]

/-- The top-level property names of a serialized JSON object. -/
def topLevelKeys : JsonVal → List String
  | .jobj fields => fields.map (fun f => f.1)
  | _ => []

/-- Upstream calls made by two successive `GetProduct` requests for the same id at
times `t1` and `t2`, threading the cache from the first call into the second. -/
def upstreamCallsOfTwo (upstream : Int → SingleUpstream) (cache : Cache)
    (id : Int) (t1 t2 : Nat) : Nat :=
  let r1 := GetProduct upstream cache t1 id
  let r2 := GetProduct upstream r1.2.1 t2 id
  r1.2.2 + r2.2.2

/-- A concrete product used by witnesses, taken from the repository's test fixtures. -/
def sampleProduct : ProductDto :=
  { id := 1
    title := "iPhone 9"
    description := "An apple mobile"
    price := 549
    thumbnail := "https://example.com/thumb.jpg"
    rating := 5
    brand := "Apple"
    category := "smartphones"
    images := []
    stock := 0
    discountPercentage := 0 }

theorem tryGetValue_cacheSet_self (c : Cache) (k : String) (v : ProductDto)
    (exp now : Nat) :
    tryGetValue (cacheSet c k v exp) now k = if now < exp then some v else none := by
  simp [tryGetValue, cacheSet, cacheLookup, List.find?]

/-- Claim C1: `GetProduct` is a read-through cache: an unexpired cached entry is returned
with no upstream call; on a miss exactly one upstream call is made and, on success, the
parsed item is stored with a 60-second absolute expiry from insertion before being
returned; hence two requests for the same id within 60 seconds make exactly one upstream
call, and a second request 61 seconds later makes a second upstream call. -/
theorem c1_getProduct_read_through_cache
    (upstream : Int → SingleUpstream) (cache : Cache) (now : Nat) (id : Int)
    (p : ProductDto) :
    (tryGetValue cache now (productCacheKey id) = some p →
      GetProduct upstream cache now id = (.ok p, cache, 0)) ∧
    (tryGetValue cache now (productCacheKey id) = none →
      upstream id = .success p →
      GetProduct upstream cache now id =
        (.ok p, cacheSet cache (productCacheKey id) p (now + 60), 1)) ∧
    (∀ δ : Nat, tryGetValue cache now (productCacheKey id) = none →
      upstream id = .success p → δ < 60 →
      upstreamCallsOfTwo upstream cache id now (now + δ) = 1) ∧
    (∀ δ : Nat, tryGetValue cache now (productCacheKey id) = none →
      upstream id = .success p → 61 ≤ δ →
      upstreamCallsOfTwo upstream cache id now (now + δ) = 2) := by
  refine ⟨?_, ?_, ?_, ?_⟩
  · intro h
    simp [GetProduct, h]
  · intro hmiss hup
    simp [GetProduct, hmiss, hup]
  · intro δ hmiss hup hδ
    have hlt : now + δ < now + 60 := by omega
    simp [upstreamCallsOfTwo, GetProduct, hmiss, hup, tryGetValue_cacheSet_self, hlt]
  · intro δ hmiss hup hδ
    have hge : ¬ (now + δ < now + 60) := by omega
    simp [upstreamCallsOfTwo, GetProduct, hmiss, hup, tryGetValue_cacheSet_self, hge]

/-- Witness for C1 at concrete inputs: a cache hit at time 5 (entry expiring at 100)
returns the snapshot with no upstream call; from an empty cache, requests at times 0 and
30 make one upstream call in total, and at times 0 and 61 two. -/
theorem c1_getProduct_read_through_cache_witness :
    GetProduct (fun _ => SingleUpstream.success sampleProduct)
        [(productCacheKey 1, ⟨sampleProduct, 100⟩)] 5 1 =
      (.ok sampleProduct, [(productCacheKey 1, ⟨sampleProduct, 100⟩)], 0) ∧
    upstreamCallsOfTwo (fun _ => SingleUpstream.success sampleProduct) [] 1 0 30 = 1 ∧
    upstreamCallsOfTwo (fun _ => SingleUpstream.success sampleProduct) [] 1 0 61 = 2 := by
  refine ⟨?_, ?_, ?_⟩
  · exact (c1_getProduct_read_through_cache (fun _ => SingleUpstream.success sampleProduct)
      [(productCacheKey 1, ⟨sampleProduct, 100⟩)] 5 1 sampleProduct).1 rfl
  · exact (c1_getProduct_read_through_cache (fun _ => SingleUpstream.success sampleProduct)
      [] 0 1 sampleProduct).2.2.1 30 rfl rfl (by decide)
  · exact (c1_getProduct_read_through_cache (fun _ => SingleUpstream.success sampleProduct)
      [] 0 1 sampleProduct).2.2.2 61 rfl rfl (by decide)

theorem ceilingDiv12_eq_ceil (t : Int) : ceilingDiv12 t = ⌈(t : ℚ) / 12⌉ := by
  have hc : ceilingDiv12 t = (t + 11) / 12 := by
    unfold ceilingDiv12
    exact Int.fdiv_eq_ediv _ (by norm_num)
  have hle : t ≤ 12 * ((t + 11) / 12) := by omega
  have hlt : 12 * ((t + 11) / 12) - 12 < t := by omega
  rw [hc]
  symm
  rw [Int.ceil_eq_iff]
  constructor
  · rw [lt_div_iff₀ (by norm_num : (0 : ℚ) < 12)]
    have h : ((t + 11) / 12 - 1) * 12 < t := by omega
    exact_mod_cast h
  · rw [div_le_iff₀ (by norm_num : (0 : ℚ) < 12)]
    have h : t ≤ ((t + 11) / 12) * 12 := by omega
    exact_mod_cast h

/-- A concrete upstream list body used by witnesses (total 100 over page size 12). -/
def sampleDummyResponse : DummyJsonResponse :=
  { products := [sampleProduct]
    total := 100
    skip := 0
    limit := 12 }

/-- Claim C2: on every successful list request the proxy reports
`totalPages = ⌈total / 12⌉`, recomputed from the upstream-reported total (the upstream
body `DummyJsonResponse` carries no page count to take); in particular
100 → 9, 25 → 3 and 0 → 0. -/
theorem c2_totalPages_is_ceiling
    (upstream : String → ListUpstream) (cache : Cache) (search : Option String)
    (page : Int) (resp : Option DummyJsonResponse)
    (h : upstream (listRequestUrl search page) = ListUpstream.success resp) :
    (GetProducts upstream cache search page).1 =
      ListResult.ok
        { products := resp.map (fun r => r.products.map toListViewItem)
          total := (resp.map (fun r => r.total)).getD 0
          page := page
          totalPages := ⌈(((resp.map (fun r => r.total)).getD 0 : Int) : ℚ) / 12⌉ } ∧
    ceilingDiv12 100 = 9 ∧ ceilingDiv12 25 = 3 ∧ ceilingDiv12 0 = 0 := by
  refine ⟨?_, by decide, by decide, by decide⟩
  simp [GetProducts, h, ceilingDiv12_eq_ceil]

/-- Witness for C2: a concrete successful request with upstream total 100 yields
`totalPages = 9`. -/
theorem c2_totalPages_is_ceiling_witness :
    (GetProducts (fun _ => ListUpstream.success (some sampleDummyResponse)) [] none 1).1 =
      ListResult.ok
        { products := some [toListViewItem sampleProduct]
          total := 100
          page := 1
          totalPages := 9 } := by
  have h := c2_totalPages_is_ceiling
    (fun _ => ListUpstream.success (some sampleDummyResponse)) [] none 1
    (some sampleDummyResponse) rfl
  rw [h.1]
  have h9 : ⌈(100 : ℚ) / 12⌉ = 9 := by
    rw [show (100 : ℚ) = ((100 : Int) : ℚ) by norm_num, ← ceilingDiv12_eq_ceil]
    decide
  simp [sampleDummyResponse, h9]

/-- Claim C4 (amended): for every page number, including zero and negative values,
`GetProducts` computes `skip = (page - 1) * 12` in C# unchecked 32-bit arithmetic with
no lower-bound validation and forwards that literal computed value (which may be
negative, or wrapped when the product overflows `Int32`) in the upstream query URL,
which is the single URL the method fetches; whenever `(page - 1) * 12` fits in `Int32`
— in particular for page = 0 and every modestly negative page — the forwarded skip is
exactly `(page - 1) * 12`, and page = 0 forwards `skip=-12`. -/
theorem c4_skip_forwarded_unvalidated
    (upstream : String → ListUpstream) (cache : Cache) (search : Option String)
    (page : Int) :
    listRequestUrl none page =
      "https://dummyjson.com/products?limit=12&skip=" ++
        toString (toInt32 (toInt32 (page - 1) * 12)) ∧
    (∀ q : String, q ≠ "" →
      listRequestUrl (some q) page =
        "https://dummyjson.com/products/search?q=" ++ q ++ "&limit=12&skip=" ++
          toString (toInt32 (toInt32 (page - 1) * 12))) ∧
    (GetProducts upstream cache search page).2.2 = [listRequestUrl search page] ∧
    (-2147483648 ≤ (page - 1) * 12 → (page - 1) * 12 < 2147483648 →
      toInt32 (toInt32 (page - 1) * 12) = (page - 1) * 12) ∧
    (page ≤ 0 → (page - 1) * 12 ≤ -12) ∧
    listRequestUrl none 0 = "https://dummyjson.com/products?limit=12&skip=-12" := by
  refine ⟨?_, ?_, ?_, ?_, ?_, ?_⟩
  · calc listRequestUrl none page
        = ("https://dummyjson.com/products?limit=12&skip=" ++
            toString (toInt32 (toInt32 (page - 1) * 12))) ++ "" := rfl
      _ = _ := String.append_empty _
  · intro q hq
    have hb : isNullOrEmpty (some q) = false := beq_false_of_ne hq
    unfold listRequestUrl
    rw [hb]
    simp only [if_pos, if_true]
    apply String.ext
    simp only [String.data_append, List.append_assoc]
    simp only [show ((toString "" : String)).data = ([] : List Char) from rfl, List.append_nil,
      List.nil_append]
    rfl
  · cases hup : upstream (listRequestUrl search page) <;> simp [GetProducts, hup]
  · intro h1 h2
    have e1 : toInt32 (page - 1) = page - 1 := by
      unfold toInt32
      omega
    rw [e1]
    unfold toInt32
    omega
  · intro hp
    omega
  · decide

/-- Witness for C4 at concrete inputs: searching "phone" on page 1 uses the search
endpoint with the computed skip; at page 0 the 32-bit skip equals the exact
`(page - 1) * 12` and the forwarded URL carries the literal `skip=-12`. -/
theorem c4_skip_forwarded_unvalidated_witness :
    listRequestUrl (some "phone") 1 =
      "https://dummyjson.com/products/search?q=" ++ "phone" ++ "&limit=12&skip=" ++
        toString (toInt32 (toInt32 ((1 : Int) - 1) * 12)) ∧
    toInt32 (toInt32 ((0 : Int) - 1) * 12) = ((0 : Int) - 1) * 12 ∧
    (((0 : Int) - 1) * 12 ≤ -12) ∧
    listRequestUrl none 0 = "https://dummyjson.com/products?limit=12&skip=-12" := by
  have h1 := c4_skip_forwarded_unvalidated (fun _ => ListUpstream.httpError) [] none 1
  have h0 := c4_skip_forwarded_unvalidated (fun _ => ListUpstream.httpError) [] none 0
  exact ⟨h1.2.1 "phone" (by decide), h0.2.2.2.1 (by decide) (by decide),
         h0.2.2.2.2.1 (by decide), h0.2.2.2.2.2⟩

/-- Counterexample to C4 as stated: at page = -2000000000 (a representable `Int32`
query value) the source's unchecked 32-bit multiplication wraps, so the forwarded URL
carries `skip=1769803764` and not the exact `(page - 1) * 12 = -24000000012` the
original claim asserts. -/
theorem c4_wrapped_skip_counterexample :
    listRequestUrl none (-2000000000) =
      "https://dummyjson.com/products?limit=12&skip=1769803764" ∧
    listRequestUrl none (-2000000000) ≠
      "https://dummyjson.com/products?limit=12&skip=" ++
        toString (((-2000000000 : Int) - 1) * 12) :=
  ⟨by decide, by decide⟩

/-- The body produced by a concrete successful list request over `sampleDummyResponse`. -/
def sampleNormalizedBody : NormalizedResponse :=
  { products := some [toListViewItem sampleProduct]
    total := 100
    page := 1
    totalPages := 9 }

/-- Claim C5 (amended): on every successful list request the response body has the shape
`{products, total, page, totalPages}` — the item list is carried under the key
"products", not "items" — with each upstream item mapped to the 8-field list-view
subset (id, title, description, price, thumbnail, rating, brand, category). -/
theorem c5_response_shape
    (upstream : String → ListUpstream) (cache : Cache) (search : Option String)
    (page : Int) (resp : Option DummyJsonResponse)
    (h : upstream (listRequestUrl search page) = ListUpstream.success resp) :
    ∃ body, (GetProducts upstream cache search page).1 = ListResult.ok body ∧
      body.products = resp.map (fun r => r.products.map toListViewItem) ∧
      topLevelKeys (serializeNormalizedResponse body) =
        ["products", "total", "page", "totalPages"] ∧
      ∀ p : ListViewItem, topLevelKeys (serializeListViewItem p) =
        ["id", "title", "description", "price", "thumbnail", "rating", "brand",
         "category"] := by
  refine ⟨{ products := resp.map (fun r => r.products.map toListViewItem)
            total := (resp.map (fun r => r.total)).getD 0
            page := page
            totalPages := ceilingDiv12 ((resp.map (fun r => r.total)).getD 0) },
          ?_, rfl, rfl, fun p => rfl⟩
  simp [GetProducts, h]

/-- Witness for C5 at a concrete successful request: the body's top-level keys. -/
theorem c5_response_shape_witness :
    (GetProducts (fun _ => ListUpstream.success (some sampleDummyResponse)) [] none 1).1 =
      ListResult.ok sampleNormalizedBody ∧
    topLevelKeys (serializeNormalizedResponse sampleNormalizedBody) =
      ["products", "total", "page", "totalPages"] := by
  obtain ⟨body, h1, h2, h3, h4⟩ := c5_response_shape
    (fun _ => ListUpstream.success (some sampleDummyResponse)) [] none 1
    (some sampleDummyResponse) rfl
  have hcomp :
      (GetProducts (fun _ => ListUpstream.success (some sampleDummyResponse)) [] none 1).1 =
        ListResult.ok sampleNormalizedBody := by decide
  have hb : body = sampleNormalizedBody := ListResult.ok.inj (h1.symm.trans hcomp)
  exact ⟨hcomp, hb ▸ h3⟩

/-- Counterexample to C5 as stated: on a concrete successful list request the serialized
body carries the item list under the key "products"; there is no "items" key. -/
theorem c5_items_key_counterexample :
    (GetProducts (fun _ => ListUpstream.success (some sampleDummyResponse)) [] none 1).1 =
      ListResult.ok sampleNormalizedBody ∧
    "items" ∉ topLevelKeys (serializeNormalizedResponse sampleNormalizedBody) ∧
    "products" ∈ topLevelKeys (serializeNormalizedResponse sampleNormalizedBody) := by
  refine ⟨by decide, by decide, by decide⟩

/-- Claim C3: when the cache holds no unexpired entry for the id and the upstream
single-item endpoint answers "not found", `GetProduct` returns a 404 whose body's single
key is "error", and the cache is exactly what it was before the request — the negative
result is not cached. -/
theorem c3_not_found_not_cached
    (upstream : Int → SingleUpstream) (cache : Cache) (now : Nat) (id : Int)
    (hmiss : tryGetValue cache now (productCacheKey id) = none)
    (h404 : upstream id = SingleUpstream.notFound) :
    GetProduct upstream cache now id = (.notFound ⟨"Product not found"⟩, cache, 1) ∧
    topLevelKeys (serializeErrorBody ⟨"Product not found"⟩) = ["error"] := by
  constructor
  · simp [GetProduct, hmiss, h404]
  · rfl

/-- Witness for C3: a nonexistent id requested against an empty cache. -/
theorem c3_not_found_not_cached_witness :
    GetProduct (fun _ => SingleUpstream.notFound) [] 0 999 =
      (.notFound ⟨"Product not found"⟩, [], 1) :=
  (c3_not_found_not_cached (fun _ => SingleUpstream.notFound) [] 0 999 rfl rfl).1

/-- Claim C6: every failure reaching or parsing the upstream list response yields a 500
with the fixed body `{error = "Failed to fetch products"}`, no partial data, exactly one
upstream attempt and no retry; the body is the same fixed message whichever failure
occurred, so the cause is not exposed. -/
theorem c6_list_failure_fixed_500
    (upstream : String → ListUpstream) (cache : Cache) (search : Option String)
    (page : Int)
    (h : upstream (listRequestUrl search page) = ListUpstream.httpError ∨
         upstream (listRequestUrl search page) = ListUpstream.parseError) :
    GetProducts upstream cache search page =
      (ListResult.serverError ⟨"Failed to fetch products"⟩, cache,
        [listRequestUrl search page]) ∧
    topLevelKeys (serializeErrorBody ⟨"Failed to fetch products"⟩) = ["error"] := by
  constructor
  · rcases h with h | h <;> simp [GetProducts, h]
  · rfl

/-- Witness for C6: a concrete unreachable upstream. -/
theorem c6_list_failure_fixed_500_witness :
    GetProducts (fun _ => ListUpstream.httpError) [] none 1 =
      (ListResult.serverError ⟨"Failed to fetch products"⟩, [],
        [listRequestUrl none 1]) :=
  (c6_list_failure_fixed_500 (fun _ => ListUpstream.httpError) [] none 1 (Or.inl rfl)).1

/-- Claim C7: `GetProducts` never reads or writes the product cache — the cache after
any list call equals the cache before it — and every list call performs exactly one
upstream fetch (list results are never served from cache). -/
theorem c7_getProducts_cache_frame
    (upstream : String → ListUpstream) (cache : Cache) (search : Option String)
    (page : Int) :
    (GetProducts upstream cache search page).2.1 = cache ∧
    (GetProducts upstream cache search page).2.2.length = 1 := by
  cases hup : upstream (listRequestUrl search page) <;> simp [GetProducts, hup]

/-- The `DummyJsonResponse` obtained when the upstream JSON object omits the
products/total fields: System.Text.Json leaves the C# property initializers, so the
product list is empty (not null) and the ints are 0. -/
def defaultDummyResponse : DummyJsonResponse :=
  { products := []
    total := 0
    skip := 0
    limit := 0 }

/-- Claim C9 (amended): if the upstream list body deserializes successfully to JSON null
or to an object missing the products/total fields, `GetProducts` still returns 200 with
total = 0 and totalPages = 0 — the item list being null in the null-body case and empty
(not null) in the missing-fields case — and every deserialization success takes the 200
path; only an HTTP failure or a deserialization exception takes the 500 path. -/
theorem c9_degenerate_body_still_ok
    (upstream : String → ListUpstream) (cache : Cache) (search : Option String)
    (page : Int) :
    (upstream (listRequestUrl search page) = ListUpstream.success none →
      (GetProducts upstream cache search page).1 =
        ListResult.ok { products := none, total := 0, page := page, totalPages := 0 }) ∧
    (upstream (listRequestUrl search page) =
        ListUpstream.success (some defaultDummyResponse) →
      (GetProducts upstream cache search page).1 =
        ListResult.ok
          { products := some [], total := 0, page := page, totalPages := 0 }) ∧
    (∀ resp, upstream (listRequestUrl search page) = ListUpstream.success resp →
      ∃ body, (GetProducts upstream cache search page).1 = ListResult.ok body) := by
  have h0 : ceilingDiv12 0 = 0 := by decide
  refine ⟨?_, ?_, ?_⟩
  · intro h
    simp [GetProducts, h, h0]
  · intro h
    simp [GetProducts, h, h0, defaultDummyResponse]
  · intro resp h
    exact ⟨{ products := resp.map (fun r => r.products.map toListViewItem)
             total := (resp.map (fun r => r.total)).getD 0
             page := page
             totalPages := ceilingDiv12 ((resp.map (fun r => r.total)).getD 0) },
           by simp [GetProducts, h]⟩

/-- Witness for C9 at concrete inputs: a null body and a missing-fields body both give
200 with total 0 and totalPages 0. -/
theorem c9_degenerate_body_still_ok_witness :
    (GetProducts (fun _ => ListUpstream.success none) [] none 1).1 =
      ListResult.ok { products := none, total := 0, page := 1, totalPages := 0 } ∧
    (GetProducts (fun _ => ListUpstream.success (some defaultDummyResponse)) [] none 1).1 =
      ListResult.ok { products := some [], total := 0, page := 1, totalPages := 0 } :=
  ⟨(c9_degenerate_body_still_ok (fun _ => ListUpstream.success none) [] none 1).1 rfl,
   (c9_degenerate_body_still_ok
      (fun _ => ListUpstream.success (some defaultDummyResponse)) [] none 1).2.1 rfl⟩

/-- Counterexample to C9 as stated: when the upstream object merely omits the fields,
the returned item list is the empty list, not null. -/
theorem c9_missing_fields_counterexample :
    (GetProducts (fun _ => ListUpstream.success (some defaultDummyResponse)) [] none 1).1 =
      ListResult.ok { products := some [], total := 0, page := 1, totalPages := 0 } ∧
    (some ([] : List ListViewItem)) ≠ (none : Option (List ListViewItem)) :=
  ⟨by decide, by decide⟩

/-- The DOM state touched by `useScrollLock.ts`: the body's class list and inline
styles, the window scroll offset (`window.scrollY`, a nonnegative offset modelled as a
natural number), the hook's `scrollPositionRef`, and the log of `window.scrollTo`
calls issued. -/
structure ScrollState where
  bodyClasses : List String
  bodyPosition : String
  bodyTop : String
  bodyWidth : String
  scrollY : Nat
  savedOffset : Nat
  restoreCalls : List (Nat × Nat)
deriving DecidableEq, Repr

/-- `document.body.classList.add`: adds the class if it is not already present. -/
def addClass (cs : List String) (c : String) : List String :=
  if c ∈ cs then cs else cs ++ [c]

/-- `document.body.classList.remove`. -/
def removeClass (cs : List String) (c : String) : List String :=
  cs.filter (fun x => x != c)

/-- The template literal `` -${scrollPositionRef.current}px `` used for body.style.top. -/
def topStyleOf (s : Nat) : String := s!"-{s}px"

/-- The effect body of `useScrollLock` (useScrollLock.ts lines 10-31), run when
`isLocked` changes. Locked: record `window.scrollY` in the ref, add the drawer-open
class and set position/top/width. Unlocked: remove the class, clear the styles, and —
only when the recorded offset is truthy, i.e. nonzero — call
`window.scrollTo(0, recorded)`. -/
def useScrollLockEffect (isLocked : Bool) (st : ScrollState) : ScrollState :=
  if isLocked then
    { st with
      savedOffset := st.scrollY
      bodyClasses := addClass st.bodyClasses "drawer-open"
      bodyPosition := "fixed"
      bodyTop := topStyleOf st.scrollY
      bodyWidth := "100%" }
  else
    let cleared := { st with
      bodyClasses := removeClass st.bodyClasses "drawer-open"
      bodyPosition := ""
      bodyTop := ""
      bodyWidth := "" }
    if st.savedOffset ≠ 0 then
      { cleared with restoreCalls := cleared.restoreCalls ++ [(0, st.savedOffset)] }
    else cleared

/-- Claim C8: activation records the scroll offset and fixes the body with top `-s px`;
deactivation clears those styles and issues a scroll restore to (0, s), except that no
restore call is issued when the recorded offset was exactly 0. -/
theorem c8_scroll_lock_restore (st : ScrollState) :
    (useScrollLockEffect true st).savedOffset = st.scrollY ∧
    (useScrollLockEffect true st).bodyPosition = "fixed" ∧
    (useScrollLockEffect true st).bodyTop = topStyleOf st.scrollY ∧
    (useScrollLockEffect false st).bodyPosition = "" ∧
    (useScrollLockEffect false st).bodyTop = "" ∧
    (st.savedOffset ≠ 0 →
      (useScrollLockEffect false st).restoreCalls =
        st.restoreCalls ++ [(0, st.savedOffset)]) ∧
    (st.savedOffset = 0 →
      (useScrollLockEffect false st).restoreCalls = st.restoreCalls) ∧
    (st.scrollY ≠ 0 →
      (useScrollLockEffect false (useScrollLockEffect true st)).restoreCalls =
        st.restoreCalls ++ [(0, st.scrollY)]) ∧
    (st.scrollY = 0 →
      (useScrollLockEffect false (useScrollLockEffect true st)).restoreCalls =
        st.restoreCalls) := by
  refine ⟨rfl, rfl, rfl, ?_, ?_, ?_, ?_, ?_, ?_⟩
  · by_cases h : st.savedOffset = 0 <;> simp [useScrollLockEffect, h]
  · by_cases h : st.savedOffset = 0 <;> simp [useScrollLockEffect, h]
  · intro h
    simp [useScrollLockEffect, h]
  · intro h
    simp [useScrollLockEffect, h]
  · intro h
    simp [useScrollLockEffect, h]
  · intro h
    simp [useScrollLockEffect, h]

/-- A page scrolled to offset 150 with no lock active and no restore call yet issued. -/
def sampleScrollAt150 : ScrollState :=
  { bodyClasses := []
    bodyPosition := ""
    bodyTop := ""
    bodyWidth := ""
    scrollY := 150
    savedOffset := 0
    restoreCalls := [] }

/-- A page at offset 0 with no lock active. -/
def sampleScrollAt0 : ScrollState :=
  { bodyClasses := []
    bodyPosition := ""
    bodyTop := ""
    bodyWidth := ""
    scrollY := 0
    savedOffset := 0
    restoreCalls := [] }

/-- Witness for C8: activating at offset 150 sets top `-150px` and deactivating
restores scroll to (0, 150); activating at offset 0 then deactivating issues no
restore call. -/
theorem c8_scroll_lock_restore_witness :
    (useScrollLockEffect true sampleScrollAt150).bodyTop = "-150px" ∧
    (useScrollLockEffect false (useScrollLockEffect true sampleScrollAt150)).restoreCalls =
      [(0, 150)] ∧
    (useScrollLockEffect false (useScrollLockEffect true sampleScrollAt0)).restoreCalls =
      [] := by
  have h150 := c8_scroll_lock_restore sampleScrollAt150
  have h0 := c8_scroll_lock_restore sampleScrollAt0
  refine ⟨h150.2.2.1.trans (by decide), ?_, ?_⟩
  · exact h150.2.2.2.2.2.2.2.1 (by decide)
  · exact h0.2.2.2.2.2.2.2.2 rfl

/-- Accumulated decimal value of a digit run, as JavaScript's parseInt builds it. -/
def digitsVal (ds : List Char) : Nat :=
  ds.foldl (fun acc c => acc * 10 + (c.toNat - 48)) 0

/-- Models JavaScript `parseInt(s, 10)`: skip leading whitespace, accept an optional
sign, read the longest leading digit run; the result is NaN — modelled as `none` — when
no digits are read. -/
def parseIntJS (s : String) : Option Int :=
  match s.data.dropWhile Char.isWhitespace with
  | '-' :: rest =>
      let ds := rest.takeWhile Char.isDigit
      if ds.isEmpty then none else some (-(digitsVal ds : Int))
  | '+' :: rest =>
      let ds := rest.takeWhile Char.isDigit
      if ds.isEmpty then none else some ((digitsVal ds : Int))
  | rest =>
      let ds := rest.takeWhile Char.isDigit
      if ds.isEmpty then none else some ((digitsVal ds : Int))

/-- A JavaScript `number | null` id as `useProduct` receives it: null, NaN, or a
(modelled as integral) number. -/
inductive JsId where
  | null
  | nan
  | num (n : Int)
deriving DecidableEq, Repr

/-- JavaScript truthiness `!!id`: null, NaN and 0 are falsy. -/
def jsTruthy : JsId → Bool
  | .null => false
  | .nan => false
  | .num n => n != 0

/-- `ProductDetailPage` (route-id handling): `const productId = id ? parseInt(id, 10) : 0`
— an absent or empty route id gives 0; otherwise parseInt, whose failure value is NaN. -/
def routeProductId : Option String → JsId
  | none => .num 0
  | some s =>
      if s == "" then .num 0
      else
        match parseIntJS s with
        | none => .nan
        | some n => .num n

/-- The query configuration built by `useProduct` (useProduct.ts): key
`['product', id]` and `enabled: !!id`. -/
structure UseProductQuery where
  keyId : JsId
  enabled : Bool
deriving DecidableEq, Repr

def useProduct (id : JsId) : UseProductQuery :=
  { keyId := id, enabled := jsTruthy id }

/-- Models TanStack Query's `enabled` option: a disabled query never issues an
automatic fetch; an enabled fresh query issues one. -/
def fetchCount (q : UseProductQuery) : Nat := if q.enabled then 1 else 0

/-- Claim C10 (amended): a null or 0 id leaves the `useProduct` query disabled, so no
network fetch is issued and the non-null assertion in its query function is never
evaluated; the detail page parses a non-numeric route id to NaN (and a missing route id
to 0), both falsy, so the backend is never called for such routes. -/
theorem c10_falsy_id_no_fetch (id : JsId) (s : String) :
    (id = JsId.null ∨ id = JsId.num 0 → fetchCount (useProduct id) = 0) ∧
    (parseIntJS s = none → fetchCount (useProduct (routeProductId (some s))) = 0) ∧
    fetchCount (useProduct (routeProductId none)) = 0 := by
  refine ⟨?_, ?_, rfl⟩
  · rintro (rfl | rfl) <;> rfl
  · intro h
    by_cases hs : s = ""
    · simp [routeProductId, hs, useProduct, jsTruthy, fetchCount]
    · simp [routeProductId, hs, h, useProduct, jsTruthy, fetchCount]

/-- Witness for C10: a null id and the non-numeric route id "abc" both issue no fetch. -/
theorem c10_falsy_id_no_fetch_witness :
    fetchCount (useProduct JsId.null) = 0 ∧
    fetchCount (useProduct (routeProductId (some "abc"))) = 0 := by
  have h := c10_falsy_id_no_fetch JsId.null "abc"
  exact ⟨h.1 (Or.inl rfl), h.2.1 (by decide)⟩

/-- Counterexample to C10 as stated: the detail page parses the non-numeric route id
"abc" to NaN, not to 0. -/
theorem c10_nonnumeric_route_counterexample :
    routeProductId (some "abc") = JsId.nan ∧ routeProductId (some "abc") ≠ JsId.num 0 :=
  ⟨by decide, by decide⟩
